import Mathlib

/-!
Verification of the conservative trading pipeline (`conservative_trading.py`)
and its configuration object (`config.py`).

Modelling conventions:
* Python floats are modelled as exact rationals (`ℚ`).
* External collaborators (risk manager, technical analyzer, trend classifier,
  quality filter, social guard, execution client) live outside `src/`; each is
  modelled as an oracle in an `Env` record giving the result (or the raised
  exception, as `Except String`) of its single call in one decision cycle.
* Every collaborator invocation is logged in a trace of `Call` events, so that
  "collaborator X is not invoked" becomes `x ∉ trace`.
* Mutable pipeline state (`symbol_trade_count`, `executed_trades`,
  `last_trade_day`, and the risk manager's state as observed through this
  module: balance cache, recorded pnls, daily resets) is threaded explicitly.
* `datetime.now().date()` is an abstract day number passed as a parameter;
  the `timestamp` field of a trade record is omitted (wall-clock time).
-/

namespace UIBot

/-- `technical_data['entry']`: entry signal with `action` and `confidence`. -/
structure EntrySignal where
  action : String
  confidence : ℚ
deriving DecidableEq, Repr

/-- The parts of `technical_data` the pipeline reads:
`entry`, `execution['current_price']`, `risk['atr']`. -/
structure TechnicalData where
  entry : EntrySignal
  current_price : ℚ
  atr : ℚ
deriving DecidableEq, Repr

/-- `primary_trend` as consumed by the pipeline: only its `trend` label. -/
structure PrimaryTrend where
  trend : String
deriving DecidableEq, Repr

/-- One collaborator invocation, recorded in the cycle's call trace. -/
inductive Call where
  | canTradeToday
  | getMultiTimeframeAnalysis
  | analyzePrimaryTrend
  | shouldEnterTrade
  | shouldAvoidTrade
  | getAccountInfo
  | setAccountBalance (balance : ℚ)
  | calculatePositionSize
  | setLeverage (lev : Int)
  | createOrder
  | updateTradeResult (pnl : ℚ)
  | resetRiskDailyStats
deriving DecidableEq, Repr

/-- Behaviour of the collaborators during one decision cycle.  An
`Except.error e` value means the call raises an exception whose `str` is `e`.
`create_order_result = .ok false` models the order call returning a falsy
handle (`if order:` fails) without raising. -/
structure Env where
  can_trade_today : Bool × String
  get_multi_timeframe_analysis : Except String TechnicalData
  analyze_primary_trend : Except String PrimaryTrend
  should_enter_trade : Bool × String
  should_avoid_trade : Bool × String
  get_account_info : Except String ℚ
  calculate_position_size : ℚ
  set_leverage_result : Except String Unit
  create_order_result : Except String Bool
deriving Repr

/-- `trade_info` dict built on successful order creation
(`conservative_trading.py` lines 147-159; `timestamp` omitted). -/
structure TradeInfo where
  symbol : String
  side : String
  size : ℚ
  size_usdt : ℚ
  entry_price : ℚ
  stop_loss : ℚ
  take_profit : ℚ
  leverage : Int
  confidence : ℚ
  trend : String
deriving DecidableEq, Repr

/-- Return value of `execute_conservative_trade`: a dict with
`executed: True` (plus trade, pnl, notional) or `executed: False` (plus
reason). -/
inductive TradeResult where
  | executed (trade : TradeInfo) (pnl : ℚ) (position_size_usdt : ℚ)
  | failed (reason : String)
deriving DecidableEq, Repr

/-- Pipeline-owned mutable state, together with the risk manager's state as
observable through this module: `risk_balance` is the cached balance
(`set_account_balance`), `risk_trade_results` the list of pnls passed to
`update_trade_result`, `risk_daily_resets` the number of
`risk_manager.reset_daily_stats()` delegations. -/
structure PipelineState where
  symbol_trade_count : List (String × Nat)
  executed_trades : List TradeInfo
  last_trade_day : Int
  risk_balance : Option ℚ
  risk_trade_results : List ℚ
  risk_daily_resets : Nat
deriving DecidableEq, Repr

/-- Fresh pipeline state, constructed on day `day` (`__init__` lines 27-29). -/
def initState (day : Int) : PipelineState :=
  { symbol_trade_count := []
    executed_trades := []
    last_trade_day := day
    risk_balance := none
    risk_trade_results := []
    risk_daily_resets := 0 }

/-- Result dict of `process_trade_decision`: `action`, `reason`,
`confidence`, and (only for EXECUTED) the `trade` entry. -/
structure Decision where
  action : String
  reason : String
  confidence : ℚ
  trade : Option TradeResult
deriving DecidableEq, Repr

/-- Stop/target computation, `conservative_trading.py` lines 118-125:
returns `(stop_loss, take_profit, side)`. -/
def computeBracket (action : String) (current_price atr : ℚ) : ℚ × ℚ × String :=
  if action = "BUY" then
    (current_price - atr * (3/2), current_price + atr * 3, "buy")
  else
    (current_price + atr * (3/2), current_price - atr * 3, "sell")

/-- Reason string of the minimum-size rejection (line 131).  Python formats
the notional with two decimals; the model keeps the exact rational — no claim
depends on the digit formatting. -/
def tooSmallReason (position_size_usdt : ℚ) : String :=
  "Слишком маленький размер позиции: " ++ toString position_size_usdt ++ " USDT"

/-- `execute_conservative_trade` (lines 91-177), with `leverage` the
configured `CONFIG.LEVERAGE`.  Returns the trade-result dict, the trace of
collaborator calls made during the attempt, and the updated state.  The
`try/except` of lines 94/175-177 converts any collaborator exception into
`failed ("Ошибка исполнения: " ++ msg)`. -/
def execute_conservative_trade (leverage : Int) (env : Env) (symbol : String)
    (technical_data : TechnicalData) (primary_trend : PrimaryTrend)
    (entry_signal : EntrySignal) (st : PipelineState) :
    TradeResult × List Call × PipelineState :=
  match env.get_account_info with
  | .error e => (.failed ("Ошибка исполнения: " ++ e), [.getAccountInfo], st)
  | .ok total_balance =>
    let st1 : PipelineState := { st with risk_balance := some total_balance }
    let position_size_usdt := env.calculate_position_size
    let current_price := technical_data.current_price
    let atr := technical_data.atr
    let trace0 : List Call :=
      [.getAccountInfo, .setAccountBalance total_balance, .calculatePositionSize,
       .setLeverage leverage]
    match env.set_leverage_result with
    | .error e => (.failed ("Ошибка исполнения: " ++ e), trace0, st1)
    | .ok _ =>
      let bracket := computeBracket entry_signal.action current_price atr
      let stop_loss := bracket.1
      let take_profit := bracket.2.1
      let side := bracket.2.2
      if position_size_usdt < 10 then
        (.failed (tooSmallReason position_size_usdt), trace0, st1)
      else
        let position_size := position_size_usdt / current_price
        match env.create_order_result with
        | .error e =>
            (.failed ("Ошибка исполнения: " ++ e), trace0 ++ [.createOrder], st1)
        | .ok false =>
            (.failed "Ошибка создания ордера", trace0 ++ [.createOrder], st1)
        | .ok true =>
            let trade_info : TradeInfo :=
              { symbol := symbol
                side := side
                size := position_size
                size_usdt := position_size_usdt
                entry_price := current_price
                stop_loss := stop_loss
                take_profit := take_profit
                leverage := leverage
                confidence := entry_signal.confidence
                trend := primary_trend.trend }
            let st2 : PipelineState :=
              { st1 with executed_trades := st1.executed_trades ++ [trade_info] }
            let estimated_pnl := position_size_usdt * (2/100)
            (.executed trade_info estimated_pnl position_size_usdt,
             trace0 ++ [.createOrder], st2)

/-- Python dict assignment `d[k] = v`: replace in place when the key exists
(order preserved), append otherwise. -/
def dictSet (m : List (String × Nat)) (key : String) (value : Nat) :
    List (String × Nat) :=
  match m with
  | [] => [(key, value)]
  | (k, v) :: rest =>
      if k = key then (key, value) :: rest
      else (k, v) :: dictSet rest key value

/-- `record_trade_execution` (lines 179-186): forwards the pnl to
`risk_manager.update_trade_result` and bumps the per-symbol counter. -/
def record_trade_execution (st : PipelineState) (symbol : String) (pnl : ℚ) :
    PipelineState :=
  let m := st.symbol_trade_count
  let count := (m.lookup symbol).getD 0 + 1
  { st with
    risk_trade_results := st.risk_trade_results ++ [pnl]
    symbol_trade_count := dictSet m symbol count }

/-- `process_trade_decision` (lines 33-89).  Returns the decision dict, the
trace of collaborator calls of the cycle, and the updated state.  Failed
execution results always carry a `reason`, so the `get('reason', ...)`
default of line 83 is never taken. -/
def process_trade_decision (leverage : Int) (env : Env) (symbol : String)
    (st : PipelineState) : Decision × List Call × PipelineState :=
  let (can_trade, reason) := env.can_trade_today
  if !can_trade then
    ({ action := "HOLD", reason := reason, confidence := 0, trade := none },
     [.canTradeToday], st)
  else
    match env.get_multi_timeframe_analysis with
    | .error e =>
        ({ action := "HOLD", reason := "Ошибка пайплайна: " ++ e,
           confidence := 0, trade := none },
         [.canTradeToday, .getMultiTimeframeAnalysis], st)
    | .ok technical_data =>
      match env.analyze_primary_trend with
      | .error e =>
          ({ action := "HOLD", reason := "Ошибка пайплайна: " ++ e,
             confidence := 0, trade := none },
           [.canTradeToday, .getMultiTimeframeAnalysis, .analyzePrimaryTrend], st)
      | .ok primary_trend =>
        let entry_signal := technical_data.entry
        let (should_enter, quality_reason) := env.should_enter_trade
        let traceQ : List Call :=
          [.canTradeToday, .getMultiTimeframeAnalysis, .analyzePrimaryTrend,
           .shouldEnterTrade]
        if !should_enter then
          ({ action := "HOLD", reason := quality_reason,
             confidence := entry_signal.confidence, trade := none }, traceQ, st)
        else
          let (should_avoid, social_reason) := env.should_avoid_trade
          let traceS := traceQ ++ [.shouldAvoidTrade]
          if should_avoid then
            ({ action := "HOLD", reason := social_reason,
               confidence := entry_signal.confidence, trade := none }, traceS, st)
          else
            let r := execute_conservative_trade leverage env symbol
              technical_data primary_trend entry_signal st
            match r with
            | (.executed trade_info pnl psu, etrace, st1) =>
                let st2 := record_trade_execution st1 symbol pnl
                ({ action := "EXECUTED", reason := "✅ Качественная сделка исполнена",
                   confidence := entry_signal.confidence,
                   trade := some (.executed trade_info pnl psu) },
                 traceS ++ etrace ++ [.updateTradeResult pnl], st2)
            | (.failed rsn, etrace, st1) =>
                ({ action := "HOLD", reason := rsn,
                   confidence := entry_signal.confidence, trade := none },
                 traceS ++ etrace, st1)

/-- `reset_daily_stats` (lines 201-208), with `today` the current calendar
day.  Returns the new state and the trace of risk-manager delegations. -/
def reset_daily_stats (st : PipelineState) (today : Int) :
    PipelineState × List Call :=
  if today ≠ st.last_trade_day then
    ({ st with
        risk_daily_resets := st.risk_daily_resets + 1
        symbol_trade_count := []
        last_trade_day := today },
     [.resetRiskDailyStats])
  else
    (st, [])

/-! ### `config.py`: `TradingConfig.update_config`

Attribute values are heterogeneous, so the attribute table of a
`TradingConfig` instance is modelled as an association list from attribute
name to a dynamic value. -/

/-- A Python attribute value as stored on `TradingConfig`. -/
inductive PyValue where
  | int (n : Int)
  | rat (q : ℚ)
  | str (s : String)
  | strList (l : List String)
deriving DecidableEq, Repr

/-- The attribute table a fresh `TradingConfig` gets in `__init__`
(`config.py` lines 7-27). -/
def defaultConfigAttrs : List (String × PyValue) :=
  [("LEVERAGE", .int 8),
   ("POSITION_SIZE_PERCENT", .int 25),
   ("MAX_DAILY_LOSS_PERCENT", .int 5),
   ("DAILY_TRADE_LIMIT", .int 3),
   ("MIN_CONFIDENCE", .rat (65/100)),
   ("MIN_ADX", .int 20),
   ("TRADING_PAIRS", .strList
      ["BTC/USDT:USDT", "ETH/USDT:USDT", "SOL/USDT:USDT", "BNB/USDT:USDT"]),
   ("BYBIT_API_KEY", .str ""),
   ("BYBIT_SECRET", .str ""),
   ("GROK_API_KEY", .str "")]

/-- `hasattr(self, key)`. -/
def hasattrConfig (attrs : List (String × PyValue)) (key : String) : Bool :=
  (attrs.lookup key).isSome

/-- `setattr(self, key, value)`: overwrite the attribute (create it when
absent, as Python would). -/
def setattrConfig (attrs : List (String × PyValue)) (key : String)
    (value : PyValue) : List (String × PyValue) :=
  match attrs with
  | [] => [(key, value)]
  | (k, v) :: rest =>
      if k = key then (key, value) :: rest
      else (k, v) :: setattrConfig rest key value

/-- `update_config` (`config.py` lines 29-34).  The loop body calls
`logger.info(...)` after each assignment, but `config.py` never defines
`logger` (there is no `import logging` and no `logger = ...` in the module),
so the first recognized key raises `NameError` right after its `setattr`.
The model returns the attribute table as the loop leaves it together with
the raised exception (`none` when the call completes normally). -/
def update_config (attrs : List (String × PyValue)) :
    List (String × PyValue) → List (String × PyValue) × Option String
  | [] => (attrs, none)
  | (key, value) :: rest =>
      if hasattrConfig attrs key then
        (setattrConfig attrs key value, some "NameError: name 'logger' is not defined")
      else
        update_config attrs rest

/-! ## Concrete cycles used by witnesses and counterexamples -/

/-- Technical snapshot of the concrete cycles: BUY at confidence 0.8,
price 100, ATR 2 (the spec's worked example). -/
def tdOK : TechnicalData :=
  { entry := { action := "BUY", confidence := 4/5 }, current_price := 100, atr := 2 }

/-- Trend assessment of the concrete cycles. -/
def ptOK : PrimaryTrend := { trend := "BULLISH" }

/-- Collaborator behaviour of a fully passing cycle: all gates admit,
balance 10000, sizer returns 2500, order accepted. -/
def envOK : Env :=
  { can_trade_today := (true, "")
    get_multi_timeframe_analysis := .ok tdOK
    analyze_primary_trend := .ok ptOK
    should_enter_trade := (true, "")
    should_avoid_trade := (false, "")
    get_account_info := .ok 10000
    calculate_position_size := 2500
    set_leverage_result := .ok ()
    create_order_result := .ok true }

/-- The trade record the passing cycle produces (stop 97 and target 106,
matching the spec's worked example). -/
def tradeOK : TradeInfo :=
  { symbol := "BTC/USDT:USDT", side := "buy", size := 25, size_usdt := 2500
    entry_price := 100, stop_loss := 97, take_profit := 106, leverage := 8
    confidence := 4/5, trend := "BULLISH" }

/-- The execution attempt of the passing cycle. -/
def execOK : TradeResult × List Call × PipelineState :=
  execute_conservative_trade 8 envOK "BTC/USDT:USDT" tdOK ptOK tdOK.entry (initState 0)

/-- Risk gate rejecting. -/
def envC1 : Env := { envOK with can_trade_today := (false, "daily limit reached") }

/-- Quality gate rejecting. -/
def envC3 : Env := { envOK with should_enter_trade := (false, "low quality") }

/-- Sizer returning an 8-USDT notional, below the 10-USDT floor. -/
def envSmall : Env := { envOK with calculate_position_size := 8 }

/-- Execution client raising on order creation. -/
def envOrderRaises : Env := { envOK with create_order_result := .error "boom" }

/-- Analysis engine raising. -/
def envAnalysisRaises : Env :=
  { envOK with get_multi_timeframe_analysis := .error "boom" }

/-! ## Helper lemmas shared by the claim theorems -/


/-- `execute_conservative_trade` never calls the risk manager's
`update_trade_result`; the recording happens in `process_trade_decision`
via `record_trade_execution` only. -/
theorem execute_no_update_trade_result (lev : Int) (env : Env) (symbol : String)
    (td : TechnicalData) (pt : PrimaryTrend) (es : EntrySignal) (st : PipelineState)
    (p : ℚ) :
    Call.updateTradeResult p ∉
      (execute_conservative_trade lev env symbol td pt es st).2.1 := by
  obtain ⟨ct, ga, apt, se, sa, gai, cps, slr, cor⟩ := env
  rcases gai with e | b
  · simp [execute_conservative_trade]
  · rcases slr with e | u
    · simp [execute_conservative_trade]
    · by_cases hlt : cps < 10
      · simp [execute_conservative_trade, hlt]
      · rcases cor with e | b'
        · simp [execute_conservative_trade, hlt]
        · cases b' <;> simp [execute_conservative_trade, hlt]

/-- `execute_conservative_trade` touches neither the per-symbol trade
counter nor the risk manager's recorded trade results. -/
theorem execute_preserves_recording_state (lev : Int) (env : Env) (symbol : String)
    (td : TechnicalData) (pt : PrimaryTrend) (es : EntrySignal) (st : PipelineState) :
    (execute_conservative_trade lev env symbol td pt es st).2.2.symbol_trade_count =
        st.symbol_trade_count ∧
    (execute_conservative_trade lev env symbol td pt es st).2.2.risk_trade_results =
        st.risk_trade_results := by
  obtain ⟨ct, ga, apt, se, sa, gai, cps, slr, cor⟩ := env
  rcases gai with e | b
  · simp [execute_conservative_trade]
  · rcases slr with e | u
    · simp [execute_conservative_trade]
    · by_cases hlt : cps < 10
      · simp [execute_conservative_trade, hlt]
      · rcases cor with e | b'
        · simp [execute_conservative_trade, hlt]
        · cases b' <;> simp [execute_conservative_trade, hlt]

/-- Inversion of an executed trade attempt: the notional is the sizer's
output, the pnl estimate is 2% of it, it passed the 10-USDT floor, and
the recorded trade carries the bracket computed from the entry action,
current price and ATR. -/
theorem execute_executed_fields (lev : Int) (env : Env) (symbol : String)
    (td : TechnicalData) (pt : PrimaryTrend) (es : EntrySignal) (st : PipelineState)
    (t : TradeInfo) (pnl psu : ℚ) (tra : List Call) (st' : PipelineState)
    (h : execute_conservative_trade lev env symbol td pt es st =
      (.executed t pnl psu, tra, st')) :
    psu = env.calculate_position_size ∧ pnl = psu * (2/100) ∧ ¬ psu < 10 ∧
    t.entry_price = td.current_price ∧ t.size_usdt = psu ∧
    t.stop_loss = (computeBracket es.action td.current_price td.atr).1 ∧
    t.take_profit = (computeBracket es.action td.current_price td.atr).2.1 ∧
    t.side = (computeBracket es.action td.current_price td.atr).2.2 := by
  obtain ⟨ct, ga, apt, se, sa, gai, cps, slr, cor⟩ := env
  rcases gai with e | b
  · simp [execute_conservative_trade] at h
  · rcases slr with e | u
    · simp [execute_conservative_trade] at h
    · by_cases hlt : cps < 10
      · simp [execute_conservative_trade, hlt] at h
      · rcases cor with e | b'
        · simp [execute_conservative_trade, hlt] at h
        · cases b'
          · simp [execute_conservative_trade, hlt] at h
          · simp [execute_conservative_trade, hlt] at h
            obtain ⟨⟨ht, hpnl, hpsu⟩, htr, hst⟩ := h
            subst ht hpnl hpsu
            simp [hlt]


/-! ## Claim theorems -/

/-- Claim C1: when the risk manager's `can_trade_today` returns
`(false, reason)`, `process_trade_decision` returns a HOLD outcome carrying
exactly that reason with confidence 0, invokes no other collaborator in that
cycle (the trace is exactly the risk-gate call), and leaves the state
unchanged. -/
theorem C1_risk_gate_short_circuits (lev : Int) (env : Env) (symbol : String)
    (st : PipelineState) (r : String)
    (h : env.can_trade_today = (false, r)) :
    process_trade_decision lev env symbol st =
      ({ action := "HOLD", reason := r, confidence := 0, trade := none },
       [Call.canTradeToday], st) := by
  simp [process_trade_decision, h]

theorem C1_witness :
    process_trade_decision 8 envC1 "BTC/USDT:USDT" (initState 0) =
      ({ action := "HOLD", reason := "daily limit reached", confidence := 0,
         trade := none },
       [Call.canTradeToday], initState 0) :=
  C1_risk_gate_short_circuits 8 envC1 "BTC/USDT:USDT" (initState 0)
    "daily limit reached" rfl

/-- Claim C2: every executed trade with entry action BUY carries
`stop_loss = price - 1.5*ATR` and `take_profit = price + 3*ATR`, so
`take_profit - price = 2*(price - stop_loss)`; every non-BUY execution is
mirrored, giving a fixed 1:2 risk:reward ratio in both directions. -/
theorem C2_bracket_ratio (lev : Int) (env : Env) (symbol : String)
    (td : TechnicalData) (pt : PrimaryTrend) (es : EntrySignal) (st : PipelineState)
    (t : TradeInfo) (pnl psu : ℚ) (tra : List Call) (st' : PipelineState)
    (h : execute_conservative_trade lev env symbol td pt es st =
      (.executed t pnl psu, tra, st')) :
    (es.action = "BUY" →
      t.side = "buy" ∧
      t.stop_loss = t.entry_price - td.atr * (3/2) ∧
      t.take_profit = t.entry_price + td.atr * 3 ∧
      t.take_profit - t.entry_price = 2 * (t.entry_price - t.stop_loss)) ∧
    (es.action ≠ "BUY" →
      t.side = "sell" ∧
      t.stop_loss = t.entry_price + td.atr * (3/2) ∧
      t.take_profit = t.entry_price - td.atr * 3 ∧
      t.entry_price - t.take_profit = 2 * (t.stop_loss - t.entry_price)) := by
  obtain ⟨-, -, -, hep, -, hsl, htp, hside⟩ :=
    execute_executed_fields lev env symbol td pt es st t pnl psu tra st' h
  constructor
  · intro hb
    simp [computeBracket, hb] at hsl htp hside
    rw [hep, hsl, htp, hside]
    refine ⟨rfl, rfl, rfl, by ring⟩
  · intro hb
    simp [computeBracket, hb] at hsl htp hside
    rw [hep, hsl, htp, hside]
    refine ⟨rfl, rfl, rfl, by ring⟩

theorem C2_witness :
    tradeOK.take_profit - tradeOK.entry_price =
      2 * (tradeOK.entry_price - tradeOK.stop_loss) := by
  have hE : execute_conservative_trade 8 envOK "BTC/USDT:USDT" tdOK ptOK tdOK.entry
      (initState 0) = (.executed tradeOK 50 2500, execOK.2.1, execOK.2.2) := by
    simp [execute_conservative_trade, envOK, tdOK, ptOK, computeBracket, execOK,
      tradeOK, initState]
    norm_num
  exact ((C2_bracket_ratio 8 envOK "BTC/USDT:USDT" tdOK ptOK tdOK.entry (initState 0)
      tradeOK 50 2500 execOK.2.1 execOK.2.2 hE).1 rfl).2.2.2

/-- Claim C3: when the risk gate passes but the quality filter's
`should_enter_trade` returns `(false, reason)`, the pipeline returns HOLD
with that reason verbatim and the entry signal's confidence, and the cycle's
trace stops at the quality check — the sentiment guard, position sizer and
execution client are never invoked and the state is unchanged. -/
theorem C3_quality_gate_short_circuits (lev : Int) (env : Env) (symbol : String)
    (st : PipelineState) (r0 rq : String) (td : TechnicalData) (pt : PrimaryTrend)
    (hc : env.can_trade_today = (true, r0))
    (ha : env.get_multi_timeframe_analysis = .ok td)
    (ht : env.analyze_primary_trend = .ok pt)
    (hq : env.should_enter_trade = (false, rq)) :
    process_trade_decision lev env symbol st =
      ({ action := "HOLD", reason := rq, confidence := td.entry.confidence,
         trade := none },
       [Call.canTradeToday, Call.getMultiTimeframeAnalysis, Call.analyzePrimaryTrend,
        Call.shouldEnterTrade], st) := by
  simp [process_trade_decision, hc, ha, ht, hq]

theorem C3_witness :
    process_trade_decision 8 envC3 "BTC/USDT:USDT" (initState 0) =
      ({ action := "HOLD", reason := "low quality", confidence := 4/5, trade := none },
       [Call.canTradeToday, Call.getMultiTimeframeAnalysis, Call.analyzePrimaryTrend,
        Call.shouldEnterTrade], initState 0) :=
  C3_quality_gate_short_circuits 8 envC3 "BTC/USDT:USDT" (initState 0) "" "low quality"
    tdOK ptOK rfl rfl rfl rfl

/-- Claim C4: when the computed notional is below 10 USDT (and the cycle
reached the sizing step), the trade is abandoned: the pipeline returns HOLD
with the too-small reason and the entry signal's confidence, `create_order`
is never called, no trade is appended to the trade log, and nothing is
recorded with the risk manager. -/
theorem C4_undersized_position_abandoned (lev : Int) (env : Env) (symbol : String)
    (st : PipelineState) (r0 rq ra : String) (b : ℚ)
    (td : TechnicalData) (pt : PrimaryTrend)
    (hc : env.can_trade_today = (true, r0))
    (ha : env.get_multi_timeframe_analysis = .ok td)
    (ht : env.analyze_primary_trend = .ok pt)
    (hq : env.should_enter_trade = (true, rq))
    (hs : env.should_avoid_trade = (false, ra))
    (hb : env.get_account_info = .ok b)
    (hl : env.set_leverage_result = .ok ())
    (hsize : env.calculate_position_size < 10) :
    (process_trade_decision lev env symbol st).1 =
      { action := "HOLD", reason := tooSmallReason env.calculate_position_size,
        confidence := td.entry.confidence, trade := none } ∧
    Call.createOrder ∉ (process_trade_decision lev env symbol st).2.1 ∧
    (process_trade_decision lev env symbol st).2.2.executed_trades =
      st.executed_trades ∧
    (∀ p, Call.updateTradeResult p ∉ (process_trade_decision lev env symbol st).2.1) := by
  simp [process_trade_decision, execute_conservative_trade, hc, ha, ht, hq, hs, hb, hl,
    hsize]

theorem C4_witness :
    (process_trade_decision 8 envSmall "BTC/USDT:USDT" (initState 0)).1 =
      { action := "HOLD", reason := tooSmallReason 8, confidence := 4/5, trade := none } ∧
    Call.createOrder ∉
      (process_trade_decision 8 envSmall "BTC/USDT:USDT" (initState 0)).2.1 ∧
    (process_trade_decision 8 envSmall "BTC/USDT:USDT" (initState 0)).2.2.executed_trades
      = [] ∧
    Call.updateTradeResult 50 ∉
      (process_trade_decision 8 envSmall "BTC/USDT:USDT" (initState 0)).2.1 := by
  have h := C4_undersized_position_abandoned 8 envSmall "BTC/USDT:USDT" (initState 0)
    "" "" "" 10000 tdOK ptOK rfl rfl rfl rfl rfl rfl rfl (by decide)
  exact ⟨h.1, h.2.1, h.2.2.1, h.2.2.2 50⟩

/-- Claim C5, amended: a collaborator exception is never propagated; the
analysis engine or trend classifier raising yields HOLD with the wrapped
reason and confidence 0, while the execution client raising (balance query,
leverage setting, or order creation) is caught inside the execution step and
yields HOLD with the wrapped reason but confidence equal to the entry
signal's confidence, not 0. -/
theorem C5_exceptions_caught (lev : Int) (env : Env) (symbol : String)
    (st : PipelineState) (r0 e : String)
    (hc : env.can_trade_today = (true, r0)) :
    (env.get_multi_timeframe_analysis = .error e →
      (process_trade_decision lev env symbol st).1 =
        { action := "HOLD", reason := "Ошибка пайплайна: " ++ e, confidence := 0,
          trade := none }) ∧
    (∀ td, env.get_multi_timeframe_analysis = .ok td →
      env.analyze_primary_trend = .error e →
      (process_trade_decision lev env symbol st).1 =
        { action := "HOLD", reason := "Ошибка пайплайна: " ++ e, confidence := 0,
          trade := none }) ∧
    (∀ td pt rq ra, env.get_multi_timeframe_analysis = .ok td →
      env.analyze_primary_trend = .ok pt →
      env.should_enter_trade = (true, rq) →
      env.should_avoid_trade = (false, ra) →
      env.get_account_info = .error e →
      (process_trade_decision lev env symbol st).1 =
        { action := "HOLD", reason := "Ошибка исполнения: " ++ e,
          confidence := td.entry.confidence, trade := none }) ∧
    (∀ td pt rq ra b, env.get_multi_timeframe_analysis = .ok td →
      env.analyze_primary_trend = .ok pt →
      env.should_enter_trade = (true, rq) →
      env.should_avoid_trade = (false, ra) →
      env.get_account_info = .ok b →
      env.set_leverage_result = .error e →
      (process_trade_decision lev env symbol st).1 =
        { action := "HOLD", reason := "Ошибка исполнения: " ++ e,
          confidence := td.entry.confidence, trade := none }) ∧
    (∀ td pt rq ra b, env.get_multi_timeframe_analysis = .ok td →
      env.analyze_primary_trend = .ok pt →
      env.should_enter_trade = (true, rq) →
      env.should_avoid_trade = (false, ra) →
      env.get_account_info = .ok b →
      env.set_leverage_result = .ok () →
      ¬ env.calculate_position_size < 10 →
      env.create_order_result = .error e →
      (process_trade_decision lev env symbol st).1 =
        { action := "HOLD", reason := "Ошибка исполнения: " ++ e,
          confidence := td.entry.confidence, trade := none }) := by
  refine ⟨?_, ?_, ?_, ?_, ?_⟩
  · intro h1
    simp [process_trade_decision, hc, h1]
  · intro td h1 h2
    simp [process_trade_decision, hc, h1, h2]
  · intro td pt rq ra h1 h2 h3 h4 h5
    simp [process_trade_decision, execute_conservative_trade, hc, h1, h2, h3, h4, h5]
  · intro td pt rq ra b h1 h2 h3 h4 h5 h6
    simp [process_trade_decision, execute_conservative_trade, hc, h1, h2, h3, h4, h5, h6]
  · intro td pt rq ra b h1 h2 h3 h4 h5 h6 h7 h8
    simp [process_trade_decision, execute_conservative_trade, hc, h1, h2, h3, h4, h5, h6,
      h7, h8]

theorem C5_witness :
    (process_trade_decision 8 envAnalysisRaises "BTC/USDT:USDT" (initState 0)).1 =
      { action := "HOLD", reason := "Ошибка пайплайна: boom", confidence := 0,
        trade := none } :=
  (C5_exceptions_caught 8 envAnalysisRaises "BTC/USDT:USDT" (initState 0) "" "boom"
    rfl).1 rfl

/-- Claim C5, counterexample to the claim as stated: the execution client
raising on order creation yields a HOLD whose confidence is the entry
signal's 0.8, not the claimed 0. -/
theorem C5_counterexample :
    (process_trade_decision 8 envOrderRaises "BTC/USDT:USDT" (initState 0)).1 =
      { action := "HOLD", reason := "Ошибка исполнения: boom", confidence := 4/5,
        trade := none } ∧
    (process_trade_decision 8 envOrderRaises "BTC/USDT:USDT" (initState 0)).1.confidence
      ≠ 0 := by
  constructor
  · norm_num [process_trade_decision, execute_conservative_trade, envOrderRaises,
      envOK, tdOK, ptOK, initState]
    rfl
  · norm_num [process_trade_decision, execute_conservative_trade, envOrderRaises,
      envOK, tdOK, ptOK, initState]

/-- Claim C6: when the EXECUTE step fails (the execution attempt returns a
non-executed result, which is also how its internal exceptions surface),
`record_trade_execution` is not performed: the risk manager's
`update_trade_result` is not invoked and the per-symbol trade counter and
recorded results are unchanged by that cycle. -/
theorem C6_failed_execute_does_not_record (lev : Int) (env : Env) (symbol : String)
    (st : PipelineState) (r0 rq ra r : String)
    (td : TechnicalData) (pt : PrimaryTrend)
    (hc : env.can_trade_today = (true, r0))
    (ha : env.get_multi_timeframe_analysis = .ok td)
    (ht : env.analyze_primary_trend = .ok pt)
    (hq : env.should_enter_trade = (true, rq))
    (hs : env.should_avoid_trade = (false, ra))
    (hx : (execute_conservative_trade lev env symbol td pt td.entry st).1 = .failed r) :
    (process_trade_decision lev env symbol st).1.action = "HOLD" ∧
    (∀ p, Call.updateTradeResult p ∉ (process_trade_decision lev env symbol st).2.1) ∧
    (process_trade_decision lev env symbol st).2.2.symbol_trade_count =
      st.symbol_trade_count ∧
    (process_trade_decision lev env symbol st).2.2.risk_trade_results =
      st.risk_trade_results := by
  have hno := execute_no_update_trade_result lev env symbol td pt td.entry st
  have hpre := execute_preserves_recording_state lev env symbol td pt td.entry st
  rcases hE : execute_conservative_trade lev env symbol td pt td.entry st with
    ⟨res, etr, st1⟩
  rw [hE] at hx
  simp only at hx
  subst hx
  rw [hE] at hpre
  simp only [hE] at hno
  simp only at hno hpre
  simp [process_trade_decision, hc, ha, ht, hq, hs, hE, hpre.1, hpre.2]
  intro p
  exact hno p

theorem C6_witness :
    (process_trade_decision 8 envSmall "BTC/USDT:USDT" (initState 0)).1.action =
      "HOLD" ∧
    Call.updateTradeResult 50 ∉
      (process_trade_decision 8 envSmall "BTC/USDT:USDT" (initState 0)).2.1 ∧
    (process_trade_decision 8 envSmall "BTC/USDT:USDT" (initState 0)).2.2.symbol_trade_count
      = [] ∧
    (process_trade_decision 8 envSmall "BTC/USDT:USDT" (initState 0)).2.2.risk_trade_results
      = [] := by
  have h := C6_failed_execute_does_not_record 8 envSmall "BTC/USDT:USDT" (initState 0)
    "" "" "" (tooSmallReason 8) tdOK ptOK rfl rfl rfl rfl rfl (by decide)
  exact ⟨h.1, h.2.1 50, h.2.2.1, h.2.2.2⟩

/-- Claim C7: running the daily reset twice with the same current date
changes state at most once — whatever the first call did, the second call
returns the state unchanged and performs no risk-manager reset delegation. -/
theorem C7_reset_daily_stats_idempotent (st : PipelineState) (today : Int) :
    reset_daily_stats (reset_daily_stats st today).1 today =
      ((reset_daily_stats st today).1, []) := by
  unfold reset_daily_stats
  by_cases h : today = st.last_trade_day <;> simp [h]

/-- Claim C8: the code contradicts the claim — `update_config` assigns a
recognized option name but then raises (`config.py` line 34 calls
`logger.info`, and `logger` is never defined in that module), so the
operation does not complete normally on recognized names.  The first
conjunct shows the raised `NameError`, the second that the assignment did
happen before the raise, the third that an unrecognized-only call is
silently ignored and completes normally. -/
theorem C8_update_config_raises_on_recognized_key :
    (update_config defaultConfigAttrs [("LEVERAGE", PyValue.int 10)]).2 =
      some "NameError: name 'logger' is not defined" ∧
    (update_config defaultConfigAttrs [("LEVERAGE", PyValue.int 10)]).1.lookup
      "LEVERAGE" = some (PyValue.int 10) ∧
    (update_config defaultConfigAttrs [("UNKNOWN_KEY", PyValue.int 1)]).2 = none := by
  decide

/-- Claim C9, amended: whenever an order is submitted, `set_leverage` with
the configured leverage was called earlier in the same execution attempt
(`create_order` is the last call of the attempt and `setLeverage` precedes
it); but `set_leverage` is not tied to order submission — it happens before
the minimum-size check, so it also fires in cycles that submit no order. -/
theorem C9_set_leverage_precedes_order (lev : Int) (env : Env) (symbol : String)
    (td : TechnicalData) (pt : PrimaryTrend) (es : EntrySignal) (st : PipelineState)
    (h : Call.createOrder ∈ (execute_conservative_trade lev env symbol td pt es st).2.1) :
    ∃ pre, (execute_conservative_trade lev env symbol td pt es st).2.1 =
        pre ++ [Call.createOrder] ∧ Call.setLeverage lev ∈ pre := by
  obtain ⟨ct, ga, apt, se, sa, gai, cps, slr, cor⟩ := env
  rcases gai with e | b
  · simp [execute_conservative_trade] at h
  · rcases slr with e | u
    · simp [execute_conservative_trade] at h
    · by_cases hlt : cps < 10
      · simp [execute_conservative_trade, hlt] at h
      · refine ⟨[Call.getAccountInfo, Call.setAccountBalance b,
          Call.calculatePositionSize, Call.setLeverage lev], ?_, by simp⟩
        rcases cor with e | b'
        · simp [execute_conservative_trade, hlt]
        · cases b' <;> simp [execute_conservative_trade, hlt]

theorem C9_witness :
    ∃ pre,
      (execute_conservative_trade 8 envOK "BTC/USDT:USDT" tdOK ptOK tdOK.entry
        (initState 0)).2.1 = pre ++ [Call.createOrder] ∧ Call.setLeverage 8 ∈ pre :=
  C9_set_leverage_precedes_order 8 envOK "BTC/USDT:USDT" tdOK ptOK tdOK.entry
    (initState 0) (by decide)

/-- Claim C9, counterexample to the claim as stated: with an 8-USDT notional
the leverage is still set although no order is submitted in that cycle. -/
theorem C9_counterexample :
    Call.setLeverage 8 ∈
      (process_trade_decision 8 envSmall "BTC/USDT:USDT" (initState 0)).2.1 ∧
    Call.createOrder ∉
      (process_trade_decision 8 envSmall "BTC/USDT:USDT" (initState 0)).2.1 ∧
    (process_trade_decision 8 envSmall "BTC/USDT:USDT" (initState 0)).1.action =
      "HOLD" := by
  decide

/-- Claim C10: every pnl forwarded to the risk manager's
`update_trade_result` is the fixed estimate of 2% of the position notional
returned by the sizer; the notional passed the 10-USDT floor on every such
path, so the recorded pnl is always strictly positive. -/
theorem C10_recorded_pnl_is_estimate (lev : Int) (env : Env) (symbol : String)
    (st : PipelineState) (p : ℚ)
    (h : Call.updateTradeResult p ∈ (process_trade_decision lev env symbol st).2.1) :
    p = env.calculate_position_size * (2/100) ∧
    10 ≤ env.calculate_position_size ∧ 0 < p := by
  obtain ⟨⟨ct, r0⟩, ga, apt, se, sa, gai, cps, slr, cor⟩ := env
  cases ct
  · simp [process_trade_decision] at h
  · rcases ga with e | td
    · simp [process_trade_decision] at h
    · rcases apt with e | pt
      · simp [process_trade_decision] at h
      · obtain ⟨qe, rq⟩ := se
        cases qe
        · simp [process_trade_decision] at h
        · obtain ⟨av, ra⟩ := sa
          cases av
          · rcases gai with e | b
            · simp [process_trade_decision, execute_conservative_trade] at h
            · rcases slr with e | u
              · simp [process_trade_decision, execute_conservative_trade] at h
              · by_cases hlt : cps < 10
                · simp [process_trade_decision, execute_conservative_trade, hlt] at h
                · rcases cor with e | b'
                  · simp [process_trade_decision, execute_conservative_trade, hlt] at h
                  · cases b'
                    · simp [process_trade_decision, execute_conservative_trade, hlt] at h
                    · simp [process_trade_decision, execute_conservative_trade, hlt] at h
                      subst h
                      have h10 : (10 : ℚ) ≤ cps := not_lt.mp hlt
                      refine ⟨rfl, h10, ?_⟩
                      calc (0 : ℚ) < 10 * (2/100) := by norm_num
                        _ ≤ cps * (2/100) := by
                            apply mul_le_mul_of_nonneg_right h10
                            norm_num
          · simp [process_trade_decision] at h

theorem C10_witness :
    (50 : ℚ) = envOK.calculate_position_size * (2/100) ∧
    10 ≤ envOK.calculate_position_size ∧ (0 : ℚ) < 50 :=
  C10_recorded_pnl_is_estimate 8 envOK "BTC/USDT:USDT" (initState 0) 50
    (by norm_num [process_trade_decision, execute_conservative_trade, envOK, tdOK,
      ptOK, initState])

end UIBot
